import Mathlib

/-!
Verification of the ESIgen report-generation core (`esigen/core.py`).

The Python source is shallowly embedded below.  Conventions used throughout:

* Python strings are Lean `String`s; machine floats are modelled as exact
  rationals `ℚ` (the claims under study concern string shapes, line counts and
  control flow, none of which depend on binary floating-point rounding).
* Python's `%`-style / `str.format` fixed-point formatting (`'{: 10.6f}'`,
  `'{:>8.3f}'`, ...) is embedded by `fmtFixed`: decimal rounding half-to-even,
  exactly `prec` digits after the point, right-aligned padding, optional
  explicit sign space.
* The Jinja2 engine used by `ESIgenReport.report` is embedded at the level the
  source exercises it: a template is a list of tokens (literal text and
  `variable` placeholders), rendering looks a variable up in the call context
  first, then in the environment globals, and renders a missing name as the
  empty string (Jinja2 `Undefined`), `None` as `"None"`, booleans as
  `"True"`/`"False"` (Python `str()`), exactly as the jinja2 library documents.
* Fallible Python code (constructors that `raise`, template compilation) is
  embedded with `Except`.
* The external collaborators (the cclib parser, `esigen.render` / PyMol, the
  `markdown` library) are parameters of the embedded functions, mirroring how
  `core.py` treats them as black boxes.
-/

namespace ESIgen

/-! ## Basic string helpers (Python `str` operations used by `core.py`) -/

/-- The character `{` (kept as a named constant; it only occurs in data). -/
def lbraceChar : Char := Char.ofNat 123

/-- The character `}`. -/
def rbraceChar : Char := Char.ofNat 125

/-- Python `str.upper` (ASCII, which is all `core.py` feeds it). -/
def upperStr (s : String) : String := String.mk (s.data.map Char.toUpper)

/-- Does `hay` start with `needle`? (helper for the Python `in` operator). -/
def startsWithChars : List Char → List Char → Bool
  | [], _ => true
  | _ :: _, [] => false
  | a :: as, b :: bs => a == b && startsWithChars as bs

/-- Substring search on character lists (helper for the Python `in` operator). -/
def hasSubstring (needle : List Char) : List Char → Bool
  | [] => needle.isEmpty
  | c :: rest => startsWithChars needle (c :: rest) || hasSubstring needle rest

/-- Python's `needle in hay` operator on strings: substring containment. -/
def pythonStrIn (needle hay : String) : Bool :=
  hasSubstring needle.data hay.data

/-- Python `'{:>w}'` / `str.rjust`: left-pad with `c` to width `w`. -/
def lpad (w : Nat) (c : Char) (s : String) : String :=
  String.mk (List.replicate (w - s.length) c) ++ s

/-- Python `'{:<w}'` / `str.ljust`: right-pad with spaces to width `w`
(the default alignment for strings in `str.format`). -/
def ljust (w : Nat) (s : String) : String :=
  s ++ String.mk (List.replicate (w - s.length) ' ')

/-- Python `'{:^w}'`: centre, extra space going to the right. -/
def cpad (w : Nat) (s : String) : String :=
  let total := w - s.length
  let left := total / 2
  String.mk (List.replicate left ' ') ++ s ++ String.mk (List.replicate (total - left) ' ')

/-- Python whitespace test used by `str.strip` (the characters Jinja2
identifiers can be surrounded by inside a placeholder). -/
def isSpaceChar (c : Char) : Bool :=
  c == ' ' || c == '\t' || c == '\n' || c == '\r'

/-- Python `str.strip` on a character list. -/
def trimChars (cs : List Char) : List Char :=
  ((cs.dropWhile isSpaceChar).reverse.dropWhile isSpaceChar).reverse

/-! ## Decimal rendering of numbers -/

/-- The decimal digit characters (total: out-of-range input, which is never
produced by the callers below, maps to `'0'`). -/
def digitChar : Nat → Char
  | 0 => '0' | 1 => '1' | 2 => '2' | 3 => '3' | 4 => '4'
  | 5 => '5' | 6 => '6' | 7 => '7' | 8 => '8' | 9 => '9'
  | _ => '0'

/-- Decimal digits of `n` (most significant first); `fuel` bounds the
recursion and is always called with `fuel > n`. -/
def natReprGo : Nat → Nat → List Char
  | 0, _ => []
  | fuel + 1, n =>
    if n < 10 then [digitChar n]
    else natReprGo fuel (n / 10) ++ [digitChar (n % 10)]

/-- Decimal rendering of a natural number (Python `'%d'`). -/
def natRepr (n : Nat) : String := String.mk (natReprGo (n + 1) n)

/-- Round to the nearest integer, ties to even — the rounding used by
Python's fixed-point float formatting. -/
def roundHalfEven (q : ℚ) : ℤ :=
  let f : ℤ := ⌊q⌋
  let r : ℚ := q - (f : ℚ)
  if r < 1 / 2 then f
  else if 1 / 2 < r then f + 1
  else if f % 2 = 0 then f else f + 1

/-- Exactly `prec` decimal digits of `n` (zero padded on the left); used for
the fractional part of fixed-point formatting. -/
def fracDigitsPad (prec n : Nat) : String :=
  String.mk ((List.range prec).map fun k => digitChar (n / 10 ^ (prec - 1 - k) % 10))

/-- Python `'{: w.pf}'.format(x)`: fixed-point with `prec` decimals,
right-aligned in a minimum field of `w`, with an explicit sign space for
non-negative values (the format used for coordinates in `xyz_block` and
`pdb_block`). -/
def fmtFixed (w prec : Nat) (q : ℚ) : String :=
  lpad w ' '
    ((if roundHalfEven (q * (10 : ℚ) ^ prec) < 0 then "-" else " ") ++
      natRepr ((roundHalfEven (q * (10 : ℚ) ^ prec)).natAbs / 10 ^ prec) ++ "." ++
      fracDigitsPad prec ((roundHalfEven (q * (10 : ℚ) ^ prec)).natAbs % 10 ^ prec))

/-- Python `'{:>w.pf}'.format(x)`: as `fmtFixed` but without the sign-space
flag (used for the occupancy / temperature columns of `pdb_block`). -/
def fmtFixedPlain (w prec : Nat) (q : ℚ) : String :=
  lpad w ' '
    ((if roundHalfEven (q * (10 : ℚ) ^ prec) < 0 then "-" else "") ++
      natRepr ((roundHalfEven (q * (10 : ℚ) ^ prec)).natAbs / 10 ^ prec) ++ "." ++
      fracDigitsPad prec ((roundHalfEven (q * (10 : ℚ) ^ prec)).natAbs % 10 ^ prec))

/-! ## The data model

`ESIgenReport.data` is a `ccDataExtended` (from `esigen.io`, built on the
external cclib library; not one of the four source files under study).  The
report code uses exactly three things from it: the ordered atom labels
(`data.atoms`), the parallel coordinate list (`data.coordinates`) and the
attribute mapping returned by `data.getallattributes()`.  We embed that
interface directly. -/

/-- A value stored in the attribute bag or bound in a Jinja context.
`vnone` is Python `None`. -/
inductive Value where
  | vnone : Value
  | vstr : String → Value
  | vint : Int → Value
  | vbool : Bool → Value
deriving DecidableEq, Repr

/-- How Jinja2 stringifies a bound value (Python `str()`): `None` renders as
`"None"`, booleans as `"True"` / `"False"`. -/
def renderValue : Value → String
  | .vnone => "None"
  | .vstr s => s
  | .vint i => (if i < 0 then "-" else "") ++ natRepr i.natAbs
  | .vbool b => if b then "True" else "False"

/-- The slice of `ccDataExtended` consumed by `ESIgenReport`: atom labels,
coordinates, and the `getallattributes()` mapping. -/
structure CCData where
  atoms : List String
  coordinates : List (ℚ × ℚ × ℚ)
  attrs : List (String × Value)
deriving DecidableEq, Repr

/-! ## Format converters (`xyz_block`, `pdb_block`) -/

/-- One line of `xyz_block`:
`'{:6} {: 10.6f} {: 10.6f} {: 10.6f}'.format(a, *xyz)` (core.py line 104). -/
def xyzLine (a : String) (xyz : ℚ × ℚ × ℚ) : String :=
  ljust 6 a ++ " " ++ fmtFixed 10 6 xyz.1 ++ " " ++ fmtFixed 10 6 xyz.2.1
    ++ " " ++ fmtFixed 10 6 xyz.2.2

/-- The list comprehension inside `xyz_block`: one formatted line per entry of
`zip(self.data.atoms, self.data.coordinates)`. -/
def xyzLines (atoms : List String) (coords : List (ℚ × ℚ × ℚ)) : List String :=
  (atoms.zip coords).map fun p => xyzLine p.1 p.2

/-- `ESIgenReport.xyz_block` (also exposed as `cartesians`):
`'\n'.join(...)` of the formatted lines. -/
def xyz_block (data : CCData) : String :=
  String.intercalate "\n" (xyzLines data.atoms data.coordinates)

/-- The PDB record-type classifier from `pdb_block` (core.py line 122):
`'ATOM' if element.upper() in 'CHONPS' else 'HETATM'`.  Note the Python `in`
operator performs *substring* search on strings. -/
def recordField (element : String) : String :=
  if pythonStrIn (upperStr element) "CHONPS" then "ATOM" else "HETATM"

/-- The organic-element set named by the specification, for comparison with
the classifier actually implemented by `recordField`. -/
def organicElementSet : List String := ["C", "H", "O", "N", "P", "S"]

/-- The per-atom data computed inside the `pdb_block` loop before string
formatting (record type, global serial, per-element counter based name). -/
structure PdbAtomRecord where
  field : String
  serial : Nat
  atomName : String
  element : String
  x : ℚ
  y : ℚ
  z : ℚ
deriving DecidableEq, Repr

/-- Read of `counter[element]` where `counter = defaultdict(int)`. -/
def lookupCount (counter : List (String × Nat)) (e : String) : Nat :=
  (List.lookup e counter).getD 0

/-- Write of `counter[element] = n` on the association-list model of the
Python dict. -/
def updateCount : List (String × Nat) → String → Nat → List (String × Nat)
  | [], e, n => [(e, n)]
  | (k, v) :: rest, e, n =>
    if k == e then (e, n) :: rest else (k, v) :: updateCount rest e n

/-- The loop of `pdb_block` (core.py lines 120-126): `i` is the running
`enumerate` index, `counter` the per-element `defaultdict(int)`. -/
def pdbRecordsGo (i : Nat) (counter : List (String × Nat)) :
    List (String × (ℚ × ℚ × ℚ)) → List PdbAtomRecord
  | [] => []
  | (element, xyz) :: rest =>
    let cnt := lookupCount counter element + 1
    { field := recordField element
      serial := i + 1
      atomName := element ++ natRepr cnt
      element := element
      x := xyz.1, y := xyz.2.1, z := xyz.2.2 } ::
      pdbRecordsGo (i + 1) (updateCount counter element cnt) rest

/-- All atom records emitted by one invocation of `pdb_block`: the counter
dict is created fresh (`counter = defaultdict(int)`) on every call. -/
def pdbRecords (atoms : List String) (coords : List (ℚ × ℚ × ℚ)) : List PdbAtomRecord :=
  pdbRecordsGo 0 [] (atoms.zip coords)

/-- The fixed-width PDB line format `s.format(...)` of `pdb_block`, with the
constant `default` dict values (`res_name='UNK'`, `res_seq_number=1`,
`occupancy=1.0`, `temp_factor=0.0`, empty `alt_loc`/`chain`/`insert`/`charge`)
already in place. -/
def pdbFormatLine (r : PdbAtomRecord) : String :=
  ljust 6 r.field ++ lpad 5 ' ' (natRepr r.serial) ++ " " ++
    cpad 4 r.atomName ++ ljust 1 "" ++ ljust 3 "UNK" ++ " " ++
    ljust 1 "" ++ lpad 4 ' ' (natRepr 1) ++ ljust 1 "" ++ "   " ++
    fmtFixed 8 3 r.x ++ fmtFixed 8 3 r.y ++ fmtFixed 8 3 r.z ++
    fmtFixedPlain 6 2 1 ++ fmtFixedPlain 6 2 0 ++ "          " ++
    lpad 2 ' ' r.element ++ lpad 2 ' ' ""

/-- `ESIgenReport.pdb_block`: constant header lines, one formatted line per
atom, constant footer. -/
def pdb_block (data : CCData) : String :=
  String.intercalate "\n"
    (["TITLE unknown", "MODEL 1"] ++
      (pdbRecords data.atoms data.coordinates).map pdbFormatLine ++
      ["ENDMDL\nEND\n"])

/-! ## The Jinja2 template engine, at the level `core.py` uses it

A template is a sequence of literal-text chunks and `variable` placeholders.
`parseTemplate` is the lexer: `\x7b\x7b name \x7d\x7d` becomes a `var` token
(name stripped of surrounding whitespace), a lone brace is literal text, and
an unterminated placeholder is a `TemplateSyntaxError` — exactly the
behaviour of `jinja2.Environment.from_string` on the template fragments the
repository deals in. -/

/-- A lexed template token. -/
inductive Token where
  | text : String → Token
  | var : String → Token
deriving DecidableEq, Repr

/-- Jinja2 compilation failures surfaced by `from_string` / `get_template`. -/
inductive TemplateError where
  | unexpectedEnd : TemplateError
deriving DecidableEq, Repr

/-- Lexer mode: in literal text, after one `{`, inside a placeholder, or
after one `}` inside a placeholder. -/
inductive PMode where
  | txt : PMode
  | lb : PMode
  | invar : PMode
  | rb : PMode
deriving DecidableEq, Repr

/-- Lexer state: tokens emitted so far, current mode, pending literal-text
buffer, pending placeholder buffer. -/
structure PState where
  toks : List Token
  mode : PMode
  buf : List Char
  vbuf : List Char
deriving Repr

/-- Emit the pending literal-text buffer (if any) as a token. -/
def flushText (st : PState) : List Token :=
  if st.buf.isEmpty then st.toks else st.toks ++ [Token.text (String.mk st.buf)]

/-- One lexer step. -/
def parseStep (st : PState) (c : Char) : PState :=
  match st.mode with
  | .txt =>
    if c == lbraceChar then { st with mode := .lb }
    else { st with buf := st.buf ++ [c] }
  | .lb =>
    if c == lbraceChar then { toks := flushText st, mode := .invar, buf := [], vbuf := [] }
    else { st with mode := .txt, buf := st.buf ++ [lbraceChar, c] }
  | .invar =>
    if c == rbraceChar then { st with mode := .rb }
    else { st with vbuf := st.vbuf ++ [c] }
  | .rb =>
    if c == rbraceChar then
      { toks := st.toks ++ [Token.var (String.mk (trimChars st.vbuf))],
        mode := .txt, buf := [], vbuf := [] }
    else { st with mode := .invar, vbuf := st.vbuf ++ [rbraceChar, c] }

/-- Compile a template string into tokens (`jinja2` lexing).  A placeholder
left open at end of input is a syntax error; a trailing single `\x7b` is
literal text. -/
def parseTemplate (s : String) : Except TemplateError (List Token) :=
  let st := s.data.foldl parseStep ⟨[], .txt, [], []⟩
  match st.mode with
  | .txt => .ok (flushText st)
  | .lb => .ok (flushText { st with buf := st.buf ++ [lbraceChar] })
  | .invar => .error .unexpectedEnd
  | .rb => .error .unexpectedEnd

/-- The variable names a template references —
`jinja2.meta.find_undeclared_variables` on templates with no local
assignments (the only kind the repository's reports use). -/
def varNames (t : List Token) : List String :=
  t.filterMap fun tok =>
    match tok with
    | .var n => some n
    | .text _ => none

/-- The environment globals installed in `ESIgenReport.__init__`
(core.py line 86): `jinja_env.globals['viewer3d'] = '\x7b\x7b viewer3d \x7d\x7d'`. -/
def jinjaGlobals : List (String × Value) :=
  [("viewer3d", Value.vstr "\x7b\x7b viewer3d \x7d\x7d")]

/-- Render one token: placeholders look the name up in the call context, then
in the environment globals, and an unresolved name renders as the empty
string (Jinja2 `Undefined`). -/
def renderToken (ctx : List (String × Value)) : Token → String
  | .text s => s
  | .var n =>
    match List.lookup n ctx with
    | some v => renderValue v
    | none =>
      match List.lookup n jinjaGlobals with
      | some v => renderValue v
      | none => ""

/-- Render a compiled template: concatenation of the rendered tokens. -/
def renderTemplate (ctx : List (String × Value)) : List Token → String
  | [] => ""
  | tok :: rest => renderToken ctx tok ++ renderTemplate ctx rest

/-! ## `ESIgenReport.report` and `data_as_dict` -/

/-- `ESIgenReport.data_as_dict(missing)` (core.py lines 171-181): every
attribute of `data.getallattributes()`, with `None` values redefined as
`missing`. -/
def data_as_dict (attrs : List (String × Value)) (missing : Value) : List (String × Value) :=
  attrs.map fun kv => (kv.1, if kv.2 = Value.vnone then missing else kv.2)

/-- The bound image reference: `None` before rendering, a path once
`render_with_pymol` has produced one. -/
def imageValue : Option String → Value
  | none => Value.vnone
  | some p => Value.vstr p

/-- The keyword context `report` passes to `Template.render`
(core.py lines 163-165), followed by `**self.data_as_dict(missing='N/A')`. -/
def reportContext (data : CCData) (nm : String) (show_NAs preview web : Bool)
    (image : Option String) : List (String × Value) :=
  [("show_NAs", Value.vbool show_NAs),
   ("cartesians", Value.vstr (xyz_block data)),
   ("web", Value.vbool web),
   ("name", Value.vstr nm),
   ("image", imageValue image),
   ("preview", Value.vbool preview)] ++
    data_as_dict data.attrs (Value.vstr "N/A")

/-- The names bound by the fixed keyword arguments of `Template.render` in
`report` (everything in `reportContext` ahead of the attribute bag). -/
def builtinContextNames : List String :=
  ["show_NAs", "cartesians", "web", "name", "image", "preview"]

/-- Failures `report` can propagate. -/
inductive RenderError where
  | templateSyntaxError : TemplateError → RenderError
  | renderImageFailure : String → RenderError
deriving DecidableEq, Repr

/-- Template resolution in `report` (core.py lines 148-162).

The `try` block looks `template` up as the name of a built-in template
resource (`jinja_env.get_template` over the package loader, modelled by the
`builtins` association list), compiles it, and — when `preview` is on and the
compiled template references `image` — invokes the external PyMol renderer.
A bare `except:` turns *any* failure in that block into a fallback that
re-interprets the `template` string itself as literal Jinja source
(`jinja_env.from_string`); failures in the fallback branch propagate.

`renderImage` is the outcome of `self.render_with_pymol()` — an external
collaborator that either produces an image path or raises. -/
def resolveTemplate (builtins : List (String × String))
    (renderImage : Except String String) (template : String) (preview : Bool) :
    Except RenderError (List Token × Option String) :=
  let tryBranch : Option (List Token × Option String) :=
    match List.lookup template builtins with
    | none => none
    | some src =>
      match parseTemplate src with
      | .error _ => none
      | .ok t =>
        if preview && (varNames t).contains "image" then
          match renderImage with
          | .error _ => none
          | .ok img => some (t, some img)
        else some (t, none)
  match tryBranch with
  | some r => .ok r
  | none =>
    match parseTemplate template with
    | .error e => .error (.templateSyntaxError e)
    | .ok t =>
      if preview && (varNames t).contains "image" then
        match renderImage with
        | .error m => .error (.renderImageFailure m)
        | .ok img => .ok (t, some img)
      else .ok (t, none)

/-- Truthiness of `os.environ.get('IN_PRODUCTION')`: unset (`None`) and the
empty string are falsy, any other string is truthy. -/
def envTruthy : Option String → Bool
  | none => false
  | some s => !s.isEmpty

/-- `ESIgenReport.report` (core.py lines 143-169).

Arguments mirror the Python signature
(`template='default.md', process_markdown=False, show_NAs=True,
preview=True, web=False`) plus the external collaborators: `builtins` (the
package template loader), `renderImage` (PyMol), `inProduction`
(`os.environ.get('IN_PRODUCTION')`) and `mdConvert` (the `markdown` library,
taking the extension list and the rendered text). -/
def reportFn (data : CCData) (nm : String) (builtins : List (String × String))
    (renderImage : Except String String) (inProduction : Option String)
    (mdConvert : List String → String → String) (template : String)
    (process_markdown show_NAs preview web : Bool) : Except RenderError String :=
  match resolveTemplate builtins renderImage template preview with
  | .error e => .error e
  | .ok (t, image) =>
    let rendered := renderTemplate (reportContext data nm show_NAs preview web image) t
    if process_markdown || envTruthy inProduction then
      .ok (mdConvert ["markdown.extensions.tables", "markdown.extensions.fenced_code"] rendered)
    else .ok rendered

/-! ## `ESIgenReport.__init__` and `ESIgenReport.parse` -/

/-- Errors raised out of the constructor: Python `ValueError` versus any
other exception class. -/
inductive EsigenError where
  | valueError : String → EsigenError
  | otherError : String → EsigenError
deriving DecidableEq, Repr

/-- Outcome of calling `self.parser(...)` — the external cclib parsing
callable: success, a `ValueError`, or any other exception. -/
inductive ParseOutcome where
  | ok : CCData → ParseOutcome
  | valueError : String → ParseOutcome
  | otherError : String → ParseOutcome
deriving DecidableEq, Repr

/-- `ESIgenReport.parse` (core.py lines 88-100): call the parser; a
`ValueError` is re-raised as `ValueError("File \x7b\x7d could not be parsed.
Please")` — note the source never calls `.format` on that message — while any
other exception propagates unchanged. -/
def parseReport (parserRes : ParseOutcome) : Except EsigenError CCData :=
  match parserRes with
  | .ok d => .ok d
  | .valueError _ => .error (.valueError "File \x7b\x7d could not be parsed. Please")
  | .otherError m => .error (.otherError m)

/-- `os.path.basename` (POSIX): the part after the last `/`. -/
def osPathBasename (p : String) : String :=
  (p.splitOn "/").getLastD p

/-- The root part of `os.path.splitext` on a basename: cut at the last dot,
unless every character before that dot is itself a dot (so `".bashrc"`
keeps its name). -/
def splitextRoot (b : String) : String :=
  let cs := b.data
  let lead := (cs.takeWhile (fun c => c == '.')).length
  match ((List.range cs.length).filter (fun i => cs.getD i ' ' == '.')).getLast? with
  | some i => if lead < i then String.mk (cs.take i) else b
  | none => b

/-- The constructed report object (the fields `__init__` assigns). -/
structure ESIgenReportObj where
  path : String
  name : String
  basename : String
  data : CCData
deriving DecidableEq, Repr

/-- `ESIgenReport.__init__` (core.py lines 72-82): raise
`ValueError('Path "..." is not available')` when the path is not an existing
file — before the parser is ever consulted — otherwise parse and build the
object.  `existingFiles` models the `os.path.isfile` view of the filesystem;
`parserRes` the outcome of the (external) parsing callable. -/
def initReport (existingFiles : List String) (path : String)
    (parserRes : ParseOutcome) : Except EsigenError ESIgenReportObj :=
  if path ∈ existingFiles then
    match parseReport parserRes with
    | .ok d =>
      .ok { path := path
            name := splitextRoot (osPathBasename path)
            basename := osPathBasename path
            data := d }
    | .error e => .error e
  else
    .error (.valueError ("Path \"" ++ path ++ "\" is not available"))

/-! ## Shape predicates (stating the spec's formatting requirements) -/

/-- The shape the specification requires of one fixed-point number column:
optional space padding, an explicit sign cell (space or minus), a non-empty
integer digit run, a decimal point, exactly `prec` fractional digits, and a
minimum field width of `w`. -/
def fixedPointShape (prec w : Nat) (s : String) : Prop :=
  ∃ pad sign intPart fracPart,
    s = pad ++ sign ++ intPart ++ "." ++ fracPart ∧
    (∀ c ∈ pad.data, c = ' ') ∧
    (sign = " " ∨ sign = "-") ∧
    intPart ≠ "" ∧
    (∀ c ∈ intPart.data, c.isDigit = true) ∧
    fracPart.length = prec ∧
    (∀ c ∈ fracPart.data, c.isDigit = true) ∧
    w ≤ s.length

/-! ## Helper lemmas -/

/-- `digitChar` always produces a decimal digit character. -/
theorem digitChar_isDigit (d : Nat) : (digitChar d).isDigit = true := by
  match d with
  | 0 | 1 | 2 | 3 | 4 | 5 | 6 | 7 | 8 | 9 => decide
  | (n + 10) =>
    show ('0').isDigit = true
    decide

/-- All characters emitted by `natReprGo` are digits. -/
theorem natReprGo_digits : ∀ fuel n, ∀ c ∈ natReprGo fuel n, c.isDigit = true := by
  intro fuel
  induction fuel with
  | zero => intro n c hc; simp [natReprGo] at hc
  | succ f ih =>
    intro n c hc
    unfold natReprGo at hc
    split at hc
    · simp only [List.mem_singleton] at hc
      subst hc
      exact digitChar_isDigit n
    · rw [List.mem_append] at hc
      rcases hc with hc | hc
      · exact ih (n / 10) c hc
      · simp only [List.mem_singleton] at hc
        subst hc
        exact digitChar_isDigit (n % 10)

/-- `natReprGo` with positive fuel emits at least one character. -/
theorem natReprGo_ne_nil (fuel n : Nat) (h : 0 < fuel) : natReprGo fuel n ≠ [] := by
  cases fuel with
  | zero => omega
  | succ f =>
    unfold natReprGo
    split
    · simp
    · simp

/-- All characters of `natRepr n` are digits. -/
theorem natRepr_digits (n : Nat) : ∀ c ∈ (natRepr n).data, c.isDigit = true :=
  natReprGo_digits (n + 1) n

/-- `natRepr` never produces the empty string. -/
theorem natRepr_ne_empty (n : Nat) : natRepr n ≠ "" := by
  intro h
  have hd : natReprGo (n + 1) n = ([] : List Char) := congrArg String.data h
  exact natReprGo_ne_nil (n + 1) n (Nat.succ_pos n) hd

/-- `fracDigitsPad` emits exactly `prec` characters. -/
theorem fracDigitsPad_length (prec n : Nat) : (fracDigitsPad prec n).length = prec := by
  simp [fracDigitsPad, String.length]

/-- All characters of `fracDigitsPad` are digits. -/
theorem fracDigitsPad_digits (prec n : Nat) :
    ∀ c ∈ (fracDigitsPad prec n).data, c.isDigit = true := by
  intro c hc
  simp only [fracDigitsPad, List.mem_map, List.mem_range] at hc
  obtain ⟨k, _, rfl⟩ := hc
  exact digitChar_isDigit _

/-- The shape of one `lpad`-padded fixed-point body, given its components. -/
theorem lpad_fixedPointShape (w prec : Nat) (sign ip fp : String)
    (hsign : sign = " " ∨ sign = "-") (hip : ip ≠ "")
    (hipd : ∀ c ∈ ip.data, c.isDigit = true) (hfl : fp.length = prec)
    (hfd : ∀ c ∈ fp.data, c.isDigit = true) :
    fixedPointShape prec w (lpad w ' ' (sign ++ ip ++ "." ++ fp)) := by
  refine ⟨String.mk (List.replicate (w - (sign ++ ip ++ "." ++ fp).length) ' '),
    sign, ip, fp, ?_, ?_, hsign, hip, hipd, hfl, hfd, ?_⟩
  · show String.mk (List.replicate (w - (sign ++ ip ++ "." ++ fp).length) ' ') ++
      (sign ++ ip ++ "." ++ fp) = _
    simp only [String.append_assoc]
  · intro c hc
    exact List.eq_of_mem_replicate hc
  · have h1 : (lpad w ' ' (sign ++ ip ++ "." ++ fp)).length =
        (String.mk (List.replicate (w - (sign ++ ip ++ "." ++ fp).length) ' ')).length +
          (sign ++ ip ++ "." ++ fp).length := String.length_append _ _
    have h2 : (String.mk (List.replicate (w - (sign ++ ip ++ "." ++ fp).length) ' ')).length =
        w - (sign ++ ip ++ "." ++ fp).length := by
      show (List.replicate (w - (sign ++ ip ++ "." ++ fp).length) ' ').length = _
      exact List.length_replicate _ _
    omega

/-- `fmtFixed` produces exactly the fixed-point column shape the spec
describes: padding, explicit sign space, integer digits, point, `prec`
fractional digits, minimum width `w`. -/
theorem fmtFixed_shape (w prec : Nat) (q : ℚ) : fixedPointShape prec w (fmtFixed w prec q) := by
  unfold fmtFixed
  apply lpad_fixedPointShape
  · rcases Decidable.em (roundHalfEven (q * (10 : ℚ) ^ prec) < 0) with h | h
    · right; simp [h]
    · left; simp [h]
  · exact natRepr_ne_empty _
  · exact natRepr_digits _
  · exact fracDigitsPad_length _ _
  · exact fracDigitsPad_digits _ _

/-- Updating the counter dict and reading the same key back. -/
theorem lookup_updateCount_self (c : List (String × Nat)) (e : String) (n : Nat) :
    List.lookup e (updateCount c e n) = some n := by
  induction c with
  | nil => simp [updateCount, List.lookup]
  | cons kv rest ih =>
    obtain ⟨k, v⟩ := kv
    by_cases hk : k = e
    · simp [updateCount, hk, List.lookup]
    · simp only [updateCount, beq_iff_eq, hk, if_false]
      have hek : (e == k) = false := by
        simp [beq_eq_false_iff_ne]
        exact fun h => hk h.symm
      simp [List.lookup, hek, ih]

/-- Updating the counter dict leaves other keys unchanged. -/
theorem lookup_updateCount_ne (c : List (String × Nat)) (e e' : String) (n : Nat)
    (h : e' ≠ e) : List.lookup e' (updateCount c e n) = List.lookup e' c := by
  induction c with
  | nil =>
    have : (e' == e) = false := by simp [beq_eq_false_iff_ne, h]
    simp [updateCount, List.lookup, this]
  | cons kv rest ih =>
    obtain ⟨k, v⟩ := kv
    by_cases hk : k = e
    · subst hk
      have h1 : (e' == k) = false := by simp [beq_eq_false_iff_ne, h]
      simp [updateCount, List.lookup, h1]
    · simp only [updateCount, beq_iff_eq, hk, if_false]
      by_cases hek : e' = k
      · simp [List.lookup, hek]
      · have h2 : (e' == k) = false := by simp [beq_eq_false_iff_ne, hek]
        simp [List.lookup, h2, ih]

/-- `defaultdict(int)` read after a same-key write. -/
theorem lookupCount_updateCount_self (c : List (String × Nat)) (e : String) (n : Nat) :
    lookupCount (updateCount c e n) e = n := by
  simp [lookupCount, lookup_updateCount_self]

/-- `defaultdict(int)` read after a different-key write. -/
theorem lookupCount_updateCount_ne (c : List (String × Nat)) (e e' : String) (n : Nat)
    (h : e' ≠ e) : lookupCount (updateCount c e n) e' = lookupCount c e' := by
  simp [lookupCount, lookup_updateCount_ne c e e' n h]

/-- Looking a key up in `data_as_dict attrs m` is looking it up in `attrs`
and replacing a `None` value with `m`. -/
theorem lookup_data_as_dict (attrs : List (String × Value)) (m : Value) (k : String) :
    List.lookup k (data_as_dict attrs m) =
      (List.lookup k attrs).map (fun v => if v = Value.vnone then m else v) := by
  induction attrs with
  | nil => rfl
  | cons kv rest ih =>
    obtain ⟨k', v⟩ := kv
    by_cases hk : k = k'
    · simp [data_as_dict, List.lookup, hk]
    · have h1 : (k == k') = false := by simp [beq_eq_false_iff_ne, hk]
      simp only [data_as_dict, List.map_cons, List.lookup, h1]
      exact ih

/-- A key that is none of the fixed `render` keyword arguments resolves
through `reportContext` to the attribute bag. -/
theorem lookup_reportContext_not_builtin (data : CCData) (nm : String)
    (sn pv wb : Bool) (img : Option String) (k : String)
    (hk : k ∉ builtinContextNames) :
    List.lookup k (reportContext data nm sn pv wb img) =
      List.lookup k (data_as_dict data.attrs (Value.vstr "N/A")) := by
  simp only [builtinContextNames, List.mem_cons, List.not_mem_nil, or_false, not_or] at hk
  obtain ⟨h1, h2, h3, h4, h5, h6⟩ := hk
  have b1 : (k == "show_NAs") = false := by simp [beq_eq_false_iff_ne, h1]
  have b2 : (k == "cartesians") = false := by simp [beq_eq_false_iff_ne, h2]
  have b3 : (k == "web") = false := by simp [beq_eq_false_iff_ne, h3]
  have b4 : (k == "name") = false := by simp [beq_eq_false_iff_ne, h4]
  have b5 : (k == "image") = false := by simp [beq_eq_false_iff_ne, h5]
  have b6 : (k == "preview") = false := by simp [beq_eq_false_iff_ne, h6]
  simp [reportContext, List.lookup, b1, b2, b3, b4, b5, b6]

/-- Rendering a concatenation of token lists concatenates the renderings. -/
theorem renderTemplate_append (ctx : List (String × Value)) (l1 l2 : List Token) :
    renderTemplate ctx (l1 ++ l2) = renderTemplate ctx l1 ++ renderTemplate ctx l2 := by
  induction l1 with
  | nil => simp [renderTemplate]
  | cons tok rest ih => simp [renderTemplate, ih, String.append_assoc]

/-- The `pdb_block` loop emits one record per atom. -/
theorem pdbRecordsGo_length (l : List (String × (ℚ × ℚ × ℚ))) :
    ∀ (i : Nat) (c : List (String × Nat)), (pdbRecordsGo i c l).length = l.length := by
  induction l with
  | nil => intro i c; rfl
  | cons hd rest ih =>
    intro i c
    obtain ⟨e, xyz⟩ := hd
    simp [pdbRecordsGo, ih]

/-- Invariant of the `pdb_block` loop: the `j`-th emitted record carries
serial `i + j + 1` and an atom name built from its element and the running
per-element counter (initial counter contents plus occurrences of that
element among the first `j + 1` atoms processed). -/
theorem pdbRecordsGo_get (l : List (String × (ℚ × ℚ × ℚ))) :
    ∀ (i : Nat) (c : List (String × Nat)) (j : Nat) (h : j < (pdbRecordsGo i c l).length),
      ((pdbRecordsGo i c l).get ⟨j, h⟩).serial = i + j + 1 ∧
      ((pdbRecordsGo i c l).get ⟨j, h⟩).atomName =
        ((pdbRecordsGo i c l).get ⟨j, h⟩).element ++
          natRepr (lookupCount c ((pdbRecordsGo i c l).get ⟨j, h⟩).element +
            ((l.take (j + 1)).map Prod.fst).count ((pdbRecordsGo i c l).get ⟨j, h⟩).element) := by
  induction l with
  | nil =>
    intro i c j h
    simp [pdbRecordsGo] at h
  | cons hd rest ih =>
    intro i c j h
    obtain ⟨e, xyz⟩ := hd
    match j with
    | 0 =>
      have hg : (pdbRecordsGo i c ((e, xyz) :: rest)).get ⟨0, h⟩ =
          { field := recordField e, serial := i + 1,
            atomName := e ++ natRepr (lookupCount c e + 1), element := e,
            x := xyz.1, y := xyz.2.1, z := xyz.2.2 } := rfl
      rw [hg]
      constructor
      · rfl
      · show e ++ natRepr (lookupCount c e + 1) =
          e ++ natRepr (lookupCount c e +
            ((((e, xyz) :: rest).take (0 + 1)).map Prod.fst).count e)
        simp [List.count_cons]
    | j' + 1 =>
      have h' : j' < (pdbRecordsGo (i + 1) (updateCount c e (lookupCount c e + 1)) rest).length := by
        have hl : (pdbRecordsGo i c ((e, xyz) :: rest)).length = rest.length + 1 := by
          rw [pdbRecordsGo_length]; rfl
        rw [pdbRecordsGo_length]
        omega
      have hget : (pdbRecordsGo i c ((e, xyz) :: rest)).get ⟨j' + 1, h⟩ =
          (pdbRecordsGo (i + 1) (updateCount c e (lookupCount c e + 1)) rest).get ⟨j', h'⟩ := rfl
      obtain ⟨ihser, ihname⟩ := ih (i + 1) (updateCount c e (lookupCount c e + 1)) j' h'
      rw [hget]
      constructor
      · rw [ihser]; omega
      · rw [ihname]
        congr 1
        congr 1
        have htake : (((e, xyz) :: rest).take (j' + 1 + 1)).map Prod.fst =
            e :: (rest.take (j' + 1)).map Prod.fst := by simp
        rw [htake]
        set E := ((pdbRecordsGo (i + 1) (updateCount c e (lookupCount c e + 1)) rest).get
          ⟨j', h'⟩).element with hE
        by_cases heq : E = e
        · rw [heq, lookupCount_updateCount_self]
          have : List.count e (e :: (rest.take (j' + 1)).map Prod.fst) =
              List.count e ((rest.take (j' + 1)).map Prod.fst) + 1 := by simp
          rw [this]
          omega
        · rw [lookupCount_updateCount_ne c e E _ heq]
          have hne : ¬ e = E := fun hh => heq hh.symm
          have : List.count E (e :: (rest.take (j' + 1)).map Prod.fst) =
              List.count E ((rest.take (j' + 1)).map Prod.fst) := by
            rw [List.count_cons]
            simp [heq, hne]
          rw [this]

/-! ## Claim theorems -/

/-- C3 (code bug): the source classifies via `element.upper() in 'CHONPS'`,
and the Python `in` operator on strings is *substring* search.  Real element
symbols such as `"Ho"` (holmium) and `"Np"` (neptunium) uppercase to
substrings of `"CHONPS"` and are classified `'ATOM'`, although they are not
members of the organic set `C, H, O, N, P, S` that the classification is
specified (and clearly intended) to test. -/
theorem recordField_substring_misclassification :
    recordField "Ho" = "ATOM" ∧ upperStr "Ho" ∉ organicElementSet ∧
    recordField "Np" = "ATOM" ∧ upperStr "Np" ∉ organicElementSet := by
  decide

/-- C4 (confirmed): for equally long atom-label and coordinate lists the
coordinate-block converter emits exactly one line per atom, each line being
the left-justified label followed by the three coordinates, each formatted
as a fixed-point column with exactly 6 decimal places, an explicit sign
space and minimum field width 10. -/
theorem xyz_block_line_format (atoms : List String) (coords : List (ℚ × ℚ × ℚ))
    (h : atoms.length = coords.length) :
    (xyzLines atoms coords).length = atoms.length ∧
    (∀ attrs : List (String × Value),
      xyz_block ⟨atoms, coords, attrs⟩ = String.intercalate "\n" (xyzLines atoms coords)) ∧
    ∀ line ∈ xyzLines atoms coords, ∃ a xyz, (a, xyz) ∈ atoms.zip coords ∧
      line = ljust 6 a ++ " " ++ fmtFixed 10 6 xyz.1 ++ " " ++ fmtFixed 10 6 xyz.2.1 ++ " "
        ++ fmtFixed 10 6 xyz.2.2 ∧
      fixedPointShape 6 10 (fmtFixed 10 6 xyz.1) ∧
      fixedPointShape 6 10 (fmtFixed 10 6 xyz.2.1) ∧
      fixedPointShape 6 10 (fmtFixed 10 6 xyz.2.2) := by
  refine ⟨?_, fun attrs => rfl, ?_⟩
  · simp [xyzLines, List.length_zip, h]
  · intro line hline
    simp only [xyzLines, List.mem_map] at hline
    obtain ⟨⟨a, xyz⟩, hmem, rfl⟩ := hline
    exact ⟨a, xyz, hmem, rfl, fmtFixed_shape 10 6 _, fmtFixed_shape 10 6 _, fmtFixed_shape 10 6 _⟩

/-- C4 witness: the theorem applied at one atom with one coordinate triple. -/
theorem xyz_block_line_format_witness :
    (["C"] : List String).length = ([((0 : ℚ), (0 : ℚ), (0 : ℚ))] : List (ℚ × ℚ × ℚ)).length ∧
    (xyzLines ["C"] [((0 : ℚ), (0 : ℚ), (0 : ℚ))]).length = 1 :=
  ⟨rfl, (xyz_block_line_format ["C"] [((0 : ℚ), (0 : ℚ), (0 : ℚ))] rfl).1⟩

/-- C5 (confirmed): in the structure (PDB) block, record serial numbers are
globally sequential starting at 1 regardless of element mix, and each atom
name is the element followed by the per-element running counter, which —
because `pdb_block` creates its `defaultdict(int)` afresh on every
invocation — equals the number of occurrences of that element among the
atoms processed so far (so it is 1 at each element's first occurrence). -/
theorem pdb_block_serials_and_counters (atoms : List String) (coords : List (ℚ × ℚ × ℚ))
    (h : atoms.length = coords.length) :
    (pdbRecords atoms coords).length = atoms.length ∧
    ∀ j (hj : j < (pdbRecords atoms coords).length),
      ((pdbRecords atoms coords).get ⟨j, hj⟩).serial = j + 1 ∧
      ((pdbRecords atoms coords).get ⟨j, hj⟩).atomName =
        ((pdbRecords atoms coords).get ⟨j, hj⟩).element ++
          natRepr ((atoms.take (j + 1)).count ((pdbRecords atoms coords).get ⟨j, hj⟩).element) := by
  have hlen : (pdbRecords atoms coords).length = atoms.length := by
    rw [pdbRecords, pdbRecordsGo_length, List.length_zip, h, Nat.min_self]
  refine ⟨hlen, ?_⟩
  intro j hj
  simp only [pdbRecords] at hj ⊢
  obtain ⟨hser, hname⟩ := pdbRecordsGo_get (atoms.zip coords) 0 [] j hj
  constructor
  · rw [hser]
    omega
  · rw [hname]
    congr 1
    congr 1
    have h1 : lookupCount []
        ((pdbRecordsGo 0 [] (atoms.zip coords)).get ⟨j, hj⟩).element = 0 := rfl
    have h2 : ((atoms.zip coords).take (j + 1)).map Prod.fst = atoms.take (j + 1) := by
      rw [List.map_take, List.map_fst_zip atoms coords (le_of_eq h)]
    rw [h2, h1, Nat.zero_add]

/-- C5 witness: the theorem applied at a three-atom molecule. -/
theorem pdb_block_serials_and_counters_witness :
    (["C", "H", "H"] : List String).length =
      ([((0 : ℚ), (0 : ℚ), (0 : ℚ)), ((0 : ℚ), (0 : ℚ), (0 : ℚ)),
        ((0 : ℚ), (0 : ℚ), (0 : ℚ))] : List (ℚ × ℚ × ℚ)).length ∧
    (pdbRecords ["C", "H", "H"]
      [((0 : ℚ), (0 : ℚ), (0 : ℚ)), ((0 : ℚ), (0 : ℚ), (0 : ℚ)),
        ((0 : ℚ), (0 : ℚ), (0 : ℚ))]).length = 3 :=
  ⟨rfl, (pdb_block_serials_and_counters ["C", "H", "H"]
    [((0 : ℚ), (0 : ℚ), (0 : ℚ)), ((0 : ℚ), (0 : ℚ), (0 : ℚ)),
      ((0 : ℚ), (0 : ℚ), (0 : ℚ))] rfl).1⟩

/-- C6 (confirmed): constructing an `ESIgenReport` on a non-existent path
fails with the `Path "..." is not available` `ValueError` without the parser
ever being consulted; construction succeeds exactly when the path exists and
the parser succeeds; and a parser failure is propagated as an error (with
the `ValueError` re-raised under the constant parse-failure message, any
other exception unchanged), never masked. -/
theorem init_fatal_conditions (fs : List String) (path : String) (parserRes : ParseOutcome) :
    (path ∉ fs →
      (∀ pr2 : ParseOutcome, initReport fs path pr2 = initReport fs path parserRes) ∧
      initReport fs path parserRes =
        .error (.valueError ("Path \"" ++ path ++ "\" is not available"))) ∧
    ((∃ r, initReport fs path parserRes = .ok r) ↔ path ∈ fs ∧ ∃ d, parserRes = .ok d) ∧
    (path ∈ fs → ∀ m,
      (parserRes = .valueError m →
        initReport fs path parserRes =
          .error (.valueError "File \x7b\x7d could not be parsed. Please")) ∧
      (parserRes = .otherError m →
        initReport fs path parserRes = .error (.otherError m))) := by
  by_cases hmem : path ∈ fs
  · refine ⟨fun hn => absurd hmem hn, ?_, ?_⟩
    · cases parserRes with
      | ok d => simp [initReport, hmem, parseReport]
      | valueError m => simp [initReport, hmem, parseReport]
      | otherError m => simp [initReport, hmem, parseReport]
    · intro _ m
      constructor <;> intro hp <;> subst hp <;> simp [initReport, hmem, parseReport]
  · refine ⟨fun _ => ⟨fun pr2 => ?_, ?_⟩, ?_, fun hmem2 => absurd hmem2 hmem⟩
    · simp [initReport, hmem]
    · simp [initReport, hmem]
    · simp [initReport, hmem]

/-- C6 witness: the theorem applied at a missing path. -/
theorem init_fatal_conditions_witness :
    initReport [] "missing.log" (ParseOutcome.ok ⟨[], [], []⟩) =
      .error (.valueError ("Path \"" ++ "missing.log" ++ "\" is not available")) :=
  (init_fatal_conditions [] "missing.log" (ParseOutcome.ok ⟨[], [], []⟩)).1
    (by decide) |>.2

/-- C10 (confirmed): when the underlying parser fails with a `ValueError`,
`ESIgenReport.parse` raises a `ValueError` whose message is exactly the
constant string `File \x7b\x7d could not be parsed. Please` — the source
never calls `.format` on it, so the path is not interpolated and the message
is independent of both the path and the original error. -/
theorem parse_error_message_constant (fs : List String) (path m : String) (hf : path ∈ fs) :
    parseReport (ParseOutcome.valueError m) =
      .error (.valueError "File \x7b\x7d could not be parsed. Please") ∧
    initReport fs path (ParseOutcome.valueError m) =
      .error (.valueError "File \x7b\x7d could not be parsed. Please") := by
  refine ⟨rfl, ?_⟩
  simp [initReport, hf, parseReport]

/-- C10 witness: the theorem applied at a concrete path and parser message. -/
theorem parse_error_message_constant_witness :
    ("x.log" : String) ∈ ["x.log"] ∧
    initReport ["x.log"] "x.log" (ParseOutcome.valueError "some cclib error") =
      .error (.valueError "File \x7b\x7d could not be parsed. Please") :=
  ⟨by decide, (parse_error_message_constant ["x.log"] "x.log" "some cclib error" (by decide)).2⟩

/-- C1 (counterexample): the claimed dependence on `show_NAs` does not exist.
With `show_NAs = False` a `None`-valued attribute still renders as `"N/A"`
(because `report` hardcodes `data_as_dict(missing='N/A')`), and with
`show_NAs = True` an absent attribute still renders as the empty string. -/
theorem report_missing_attribute_sentinel_cex :
    reportFn ⟨[], [], [("dipole", Value.vnone)]⟩ "mol" [] (Except.ok "") none
        (fun _ s => s) "\x7b\x7b dipole \x7d\x7d" false false false false = Except.ok "N/A" ∧
    ("N/A" : String) ≠ "" ∧
    reportFn ⟨[], [], []⟩ "mol" [] (Except.ok "") none
        (fun _ s => s) "\x7b\x7b dipole \x7d\x7d" false true false false = Except.ok "" := by
  refine ⟨by rfl, by decide, by rfl⟩

/-- C1 (amended, confirmed): whenever template resolution succeeds, `report`
returns a result for every attribute bag — a missing key is never an error.
A placeholder for a key that is not one of the fixed `render` keyword
arguments (nor the `viewer3d` global) renders as the empty string when the
key is absent from the bag and as the fixed sentinel `"N/A"` when the key is
present with a `None` value, in both cases independently of `show_NAs`
(which is merely exposed to the template as a context variable). -/
theorem report_missing_attribute_total
    (data : CCData) (nm : String) (builtins : List (String × String))
    (renderImage : Except String String) (inProduction : Option String)
    (mdConvert : List String → String → String) (template : String)
    (pm sn pv wb : Bool) (t : List Token) (img : Option String)
    (hres : resolveTemplate builtins renderImage template pv = .ok (t, img)) :
    (∃ out, reportFn data nm builtins renderImage inProduction mdConvert template pm sn pv wb
        = .ok out) ∧
    ∀ k, k ∉ builtinContextNames → k ≠ "viewer3d" →
      (List.lookup k data.attrs = none →
        renderToken (reportContext data nm sn pv wb img) (Token.var k) = "") ∧
      (List.lookup k data.attrs = some Value.vnone →
        renderToken (reportContext data nm sn pv wb img) (Token.var k) = "N/A") := by
  constructor
  · simp only [reportFn, hres]
    split
    · exact ⟨_, rfl⟩
    · exact ⟨_, rfl⟩
  · intro k hk hkv
    have hctx := lookup_reportContext_not_builtin data nm sn pv wb img k hk
    constructor
    · intro hl
      have hnone : List.lookup k (reportContext data nm sn pv wb img) = none := by
        rw [hctx, lookup_data_as_dict, hl]; rfl
      have hb : (k == "viewer3d") = false := by simp [beq_eq_false_iff_ne, hkv]
      have hg : List.lookup k jinjaGlobals = none := by
        simp [jinjaGlobals, List.lookup, hb]
      simp [renderToken, hnone, hg]
    · intro hl
      have hsome : List.lookup k (reportContext data nm sn pv wb img) =
          some (Value.vstr "N/A") := by
        rw [hctx, lookup_data_as_dict, hl]; rfl
      simp [renderToken, hsome, renderValue]

/-- C1 witness: the amended theorem applied at a concrete bag holding a
`None`-valued `etotal`. -/
theorem report_missing_attribute_total_witness :
    resolveTemplate [] (Except.ok "") "\x7b\x7b etotal \x7d\x7d" false =
      .ok ([Token.var "etotal"], none) ∧
    ∃ out, reportFn ⟨[], [], [("etotal", Value.vnone)]⟩ "mol" [] (Except.ok "") none
        (fun _ s => s) "\x7b\x7b etotal \x7d\x7d" false true false false = .ok out :=
  ⟨by rfl,
    (report_missing_attribute_total ⟨[], [], [("etotal", Value.vnone)]⟩ "mol" []
      (Except.ok "") none (fun _ s => s) "\x7b\x7b etotal \x7d\x7d" false true false false
      [Token.var "etotal"] none (by rfl)).1⟩

/-- C2 (counterexample): a string that fails to resolve as a built-in
template name and is not valid template source — here an unterminated
placeholder opener — makes `report` fail with a template syntax error, so
`report()` does not succeed for *every* unresolvable string. -/
theorem report_template_syntax_cex :
    reportFn ⟨[], [], []⟩ "mol" [] (Except.ok "") none (fun _ s => s) "\x7b\x7b"
        false true true false =
      Except.error (RenderError.templateSyntaxError TemplateError.unexpectedEnd) ∧
    ¬∃ out, reportFn ⟨[], [], []⟩ "mol" [] (Except.ok "") none (fun _ s => s) "\x7b\x7b"
        false true true false = Except.ok out := by
  have h : reportFn ⟨[], [], []⟩ "mol" [] (Except.ok "") none (fun _ s => s) "\x7b\x7b"
      false true true false =
      Except.error (RenderError.templateSyntaxError TemplateError.unexpectedEnd) := by rfl
  refine ⟨h, ?_⟩
  rintro ⟨out, hout⟩
  rw [h] at hout
  exact Except.noConfusion hout

/-- C2 (amended, confirmed): for every string that fails to resolve as a
built-in template name but parses as template source (and whose optional
image auto-render step does not itself fail), `report` succeeds by treating
the string as literal template text, producing the rendering of that text
with its placeholders substituted; the resolution failure itself is swallowed
by the fallback and never propagated. -/
theorem report_literal_fallback
    (data : CCData) (nm : String) (builtins : List (String × String))
    (renderImage : Except String String) (inProduction : Option String)
    (mdConvert : List String → String → String) (template : String)
    (pm sn pv wb : Bool) (t : List Token)
    (hn : List.lookup template builtins = none)
    (hp : parseTemplate template = .ok t)
    (hi : pv = false ∨ (varNames t).contains "image" = false ∨ ∃ p, renderImage = .ok p) :
    ∃ img, resolveTemplate builtins renderImage template pv = .ok (t, img) ∧
      reportFn data nm builtins renderImage inProduction mdConvert template pm sn pv wb =
        .ok (if pm || envTruthy inProduction then
              mdConvert ["markdown.extensions.tables", "markdown.extensions.fenced_code"]
                (renderTemplate (reportContext data nm sn pv wb img) t)
             else renderTemplate (reportContext data nm sn pv wb img) t) := by
  have hres : ∃ img, resolveTemplate builtins renderImage template pv = .ok (t, img) := by
    simp only [resolveTemplate, hn, hp]
    cases hc : pv && (varNames t).contains "image" with
    | false => exact ⟨none, by simp [hc]⟩
    | true =>
      rcases hi with hpv | him | ⟨p, hr⟩
      · rw [hpv] at hc; simp at hc
      · rw [Bool.and_eq_true] at hc; rw [him] at hc; simp at hc
      · exact ⟨some p, by simp [hc, hr]⟩
  obtain ⟨img, hresolve⟩ := hres
  refine ⟨img, hresolve, ?_⟩
  simp only [reportFn, hresolve]
  cases hcond : pm || envTruthy inProduction <;> simp [hcond]

/-- C2 witness: the amended theorem applied at a literal template string not
present in the loader. -/
theorem report_literal_fallback_witness :
    List.lookup "hi \x7b\x7b name \x7d\x7d" [("default.md", "src")] = none ∧
    ∃ img, resolveTemplate [("default.md", "src")] (Except.ok "") "hi \x7b\x7b name \x7d\x7d"
        false = .ok ([Token.text "hi ", Token.var "name"], img) ∧
      reportFn ⟨[], [], []⟩ "mol" [("default.md", "src")] (Except.ok "") none (fun _ s => s)
          "hi \x7b\x7b name \x7d\x7d" false true false false =
        .ok (if false || envTruthy none then
              (fun _ s => s : List String → String → String)
                ["markdown.extensions.tables", "markdown.extensions.fenced_code"]
                (renderTemplate (reportContext ⟨[], [], []⟩ "mol" true false false img)
                  [Token.text "hi ", Token.var "name"])
             else renderTemplate (reportContext ⟨[], [], []⟩ "mol" true false false img)
                  [Token.text "hi ", Token.var "name"]) :=
  ⟨by rfl,
    report_literal_fallback ⟨[], [], []⟩ "mol" [("default.md", "src")] (Except.ok "") none
      (fun _ s => s) "hi \x7b\x7b name \x7d\x7d" false true false false
      [Token.text "hi ", Token.var "name"] (by rfl) (by rfl) (Or.inl rfl)⟩

/-- C7 (confirmed): `report` post-processes its rendered text through the
Markdown converter — invoked with exactly the table and fenced-code
extensions — precisely when `process_markdown` is set or the process-wide
`IN_PRODUCTION` environment flag is truthy; otherwise it returns the raw
rendered text. -/
theorem report_markdown_conversion
    (data : CCData) (nm : String) (builtins : List (String × String))
    (renderImage : Except String String) (inProduction : Option String)
    (mdConvert : List String → String → String) (template : String)
    (pm sn pv wb : Bool) :
    reportFn data nm builtins renderImage inProduction mdConvert template pm sn pv wb =
      if pm || envTruthy inProduction then
        (reportFn data nm builtins renderImage none mdConvert template false sn pv wb).map
          (mdConvert ["markdown.extensions.tables", "markdown.extensions.fenced_code"])
      else
        reportFn data nm builtins renderImage none mdConvert template false sn pv wb := by
  unfold reportFn
  cases hres : resolveTemplate builtins renderImage template pv with
  | error e => cases hcond : pm || envTruthy inProduction <;> simp [hcond, Except.map]
  | ok pr =>
    obtain ⟨t, img⟩ := pr
    cases hcond : pm || envTruthy inProduction <;> simp [hcond, envTruthy, Except.map]

/-- C8 (confirmed): a template that references `viewer3d` renders with the
literal token `\x7b\x7b viewer3d \x7d\x7d` embedded verbatim in the output:
the environment global installed by `__init__` maps the name to that exact
string and the renderer's single substitution pass does not re-expand it, so
it survives for the later external substitution step. -/
theorem report_viewer3d_preserved
    (data : CCData) (nm : String) (builtins : List (String × String))
    (renderImage : Except String String) (inProduction : Option String)
    (mdConvert : List String → String → String) (template : String)
    (sn pv wb : Bool) (t : List Token) (img : Option String)
    (hres : resolveTemplate builtins renderImage template pv = .ok (t, img))
    (hmem : Token.var "viewer3d" ∈ t)
    (hbag : List.lookup "viewer3d" data.attrs = none)
    (henv : envTruthy inProduction = false) :
    ∃ pre post,
      reportFn data nm builtins renderImage inProduction mdConvert template false sn pv wb =
        .ok (pre ++ "\x7b\x7b viewer3d \x7d\x7d" ++ post) := by
  obtain ⟨s1, s2, rfl⟩ := List.append_of_mem hmem
  refine ⟨renderTemplate (reportContext data nm sn pv wb img) s1,
    renderTemplate (reportContext data nm sn pv wb img) s2, ?_⟩
  have htok : renderToken (reportContext data nm sn pv wb img) (Token.var "viewer3d") =
      "\x7b\x7b viewer3d \x7d\x7d" := by
    have hctx := lookup_reportContext_not_builtin data nm sn pv wb img "viewer3d" (by decide)
    have hnone : List.lookup "viewer3d" (reportContext data nm sn pv wb img) = none := by
      rw [hctx, lookup_data_as_dict, hbag]; rfl
    have hg : List.lookup "viewer3d" jinjaGlobals =
        some (Value.vstr "\x7b\x7b viewer3d \x7d\x7d") := rfl
    simp [renderToken, hnone, hg, renderValue]
  simp only [reportFn, hres, henv, Bool.false_or, Bool.or_false, if_neg, Bool.false_eq_true,
    not_false_eq_true]
  rw [renderTemplate_append]
  simp [renderTemplate, htok, String.append_assoc]

/-- C8 witness: the theorem applied at a literal template consisting of the
viewer placeholder alone. -/
theorem report_viewer3d_preserved_witness :
    ∃ pre post,
      reportFn ⟨[], [], []⟩ "mol" [] (Except.ok "") none (fun _ s => s)
          "\x7b\x7b viewer3d \x7d\x7d" false true false false =
        .ok (pre ++ "\x7b\x7b viewer3d \x7d\x7d" ++ post) :=
  report_viewer3d_preserved ⟨[], [], []⟩ "mol" [] (Except.ok "") none (fun _ s => s)
    "\x7b\x7b viewer3d \x7d\x7d" true false false [Token.var "viewer3d"] none
    (by rfl) (by decide) (by rfl) (by rfl)

/-- `resolveTemplate` with `preview = False` never consults the image
renderer: its result is determined by the loader and the two parses alone. -/
theorem resolveTemplate_preview_false (builtins : List (String × String))
    (r : Except String String) (template : String) :
    resolveTemplate builtins r template false =
      match List.lookup template builtins with
      | some src =>
        match parseTemplate src with
        | .ok t => .ok (t, none)
        | .error _ =>
          match parseTemplate template with
          | .ok t => .ok (t, none)
          | .error e => .error (.templateSyntaxError e)
      | none =>
        match parseTemplate template with
        | .ok t => .ok (t, none)
        | .error e => .error (.templateSyntaxError e) := by
  cases hl : List.lookup template builtins with
  | none =>
    cases hp : parseTemplate template with
    | ok t => simp [resolveTemplate, hl, hp]
    | error e => simp [resolveTemplate, hl, hp]
  | some src =>
    cases hps : parseTemplate src with
    | ok t => simp [resolveTemplate, hl, hps]
    | error e =>
      cases hp : parseTemplate template with
      | ok t => simp [resolveTemplate, hl, hps, hp]
      | error e2 => simp [resolveTemplate, hl, hps, hp]

/-- C9 (confirmed): with image auto-rendering (`preview`) disabled, the
external image renderer is never invoked (`report` is independent of its
outcome), template resolution binds the image placeholder to `None`, an
`image` placeholder renders as Python's null representation rather than an
error, and rendering succeeds whenever the template text parses. -/
theorem report_preview_disabled_image_null
    (data : CCData) (nm : String) (builtins : List (String × String))
    (r1 r2 : Except String String) (inProduction : Option String)
    (mdConvert : List String → String → String) (template : String)
    (pm sn wb : Bool) :
    (reportFn data nm builtins r1 inProduction mdConvert template pm sn false wb =
      reportFn data nm builtins r2 inProduction mdConvert template pm sn false wb) ∧
    (∀ t img, resolveTemplate builtins r1 template false = .ok (t, img) → img = none) ∧
    (renderToken (reportContext data nm sn false wb none) (Token.var "image") = "None") ∧
    (∀ t2, parseTemplate template = .ok t2 →
      ∃ out, reportFn data nm builtins r1 inProduction mdConvert template pm sn false wb
        = .ok out) := by
  refine ⟨?_, ?_, rfl, ?_⟩
  · unfold reportFn
    rw [resolveTemplate_preview_false builtins r1 template,
      resolveTemplate_preview_false builtins r2 template]
  · intro t img hok
    rw [resolveTemplate_preview_false] at hok
    split at hok
    · split at hok
      · simp only [Except.ok.injEq, Prod.mk.injEq] at hok
        exact hok.2.symm
      · split at hok
        · simp only [Except.ok.injEq, Prod.mk.injEq] at hok
          exact hok.2.symm
        · exact Except.noConfusion hok
    · split at hok
      · simp only [Except.ok.injEq, Prod.mk.injEq] at hok
        exact hok.2.symm
      · exact Except.noConfusion hok
  · intro t2 hp2
    have hr : ∃ tr, resolveTemplate builtins r1 template false = Except.ok tr := by
      rw [resolveTemplate_preview_false builtins r1 template]
      cases hl : List.lookup template builtins with
      | none =>
        simp only [hl, hp2]
        exact ⟨_, rfl⟩
      | some src =>
        cases hps : parseTemplate src with
        | ok t3 =>
          simp only [hl, hps]
          exact ⟨_, rfl⟩
        | error e =>
          simp only [hl, hps, hp2]
          exact ⟨_, rfl⟩
    obtain ⟨⟨t4, img4⟩, hr⟩ := hr
    simp only [reportFn, hr]
    cases hcond : pm || envTruthy inProduction <;> simp [hcond]

/-- C9 witness: the theorem applied with two contrasting image renderers —
one succeeding, one failing — and a one-word literal template. -/
theorem report_preview_disabled_image_null_witness :
    (reportFn ⟨[], [], []⟩ "mol" [] (Except.ok "img.png") none (fun _ s => s) "t"
        false true false false =
      reportFn ⟨[], [], []⟩ "mol" [] (Except.error "pymol crashed") none (fun _ s => s) "t"
        false true false false) ∧
    (∀ t img, resolveTemplate [] (Except.ok "img.png") "t" false = .ok (t, img) →
      img = none) ∧
    (renderToken (reportContext ⟨[], [], []⟩ "mol" true false false none)
      (Token.var "image") = "None") ∧
    (∀ t2, parseTemplate "t" = .ok t2 →
      ∃ out, reportFn ⟨[], [], []⟩ "mol" [] (Except.ok "img.png") none (fun _ s => s) "t"
        false true false false = .ok out) :=
  report_preview_disabled_image_null ⟨[], [], []⟩ "mol" [] (Except.ok "img.png")
    (Except.error "pymol crashed") none (fun _ s => s) "t" false true false

end ESIgen
